import Mathlib

/-!
# AURA — verification of the fatigue-monitor dashboard and core engine

This development embeds the AURA repository's code in Lean 4 and proves the
behavioural properties stated in its specification.

* The frontend (React dashboard `App.jsx` and the API client `api.js`) is
  embedded directly from the JavaScript source: the `fetch` wrapper `request`,
  the gauge-rendering expressions, and the browser-notification cooldown logic
  become pure Lean functions over explicit state.
* The backend engine (`backend/server/app.py`, `backend/server/monitor.py`) is
  not part of the available sources; its components (signal trackers, baseline
  calibrator, fatigue scorer, intervention engine) are modelled from the
  specification's own description and marked `Modelled from the spec:` on each
  definition.

Timestamps and scores are rational numbers; fallible operations return
`Except`; stateful code is explicit state passing.
-/

namespace Aura

/-! ## Frontend: API client (`src/frontend/src/api.js`, `src/unnamed/part_002`)

`request` wraps `fetch`: on a non-ok response it throws
`Error("API " + status + ": " + statusText)`, otherwise it resolves with the
parsed JSON body.  Per the WHATWG fetch specification, `Response.ok` is true
exactly when the status is in the range 200–299. -/

/-- A fetch `Response` as the API client observes it: HTTP status, status text,
and the value `res.json()` resolves to (the parsed body, represented
abstractly as a string). -/
structure HttpResponse where
  status : Nat
  statusText : String
  jsonBody : String

/-- `Response.ok`: status in the 2xx range (per the fetch standard). -/
def HttpResponse.ok (r : HttpResponse) : Bool :=
  decide (200 ≤ r.status) && decide (r.status < 300)

/-- The `request` helper of `api.js`: rejects with
`Error("API " + status + ": " + statusText)` when `!res.ok`, otherwise
resolves `res.json()`. -/
def request (r : HttpResponse) : Except String String :=
  if r.ok then Except.ok r.jsonBody
  else Except.error ("API " ++ toString r.status ++ ": " ++ r.statusText)

/-- `Except.isOk` spelled locally so every definition in this file is
self-contained. -/
def exceptIsOk : Except String String → Bool
  | Except.ok _ => true
  | Except.error _ => false

/-- `api.getStatus`: returns `request(...)` for the `/status` response with no
error handling of its own. -/
def apiGetStatus (r : HttpResponse) : Except String String := request r

/-- `api.getMetrics`: returns `request(...)` for the `/metrics` response with
no error handling of its own. -/
def apiGetMetrics (r : HttpResponse) : Except String String := request r

/-- `api.getHistory`: returns `request(...)` for the `/history` response with
no error handling of its own. -/
def apiGetHistory (r : HttpResponse) : Except String String := request r

/-- `api.panic`: returns `request(...)` for the `/panic` POST response with no
error handling of its own. -/
def apiPanic (r : HttpResponse) : Except String String := request r

/-- `api.recalibrate`: returns `request(...)` for the `/recalibrate` POST
response with no error handling of its own. -/
def apiRecalibrate (r : HttpResponse) : Except String String := request r

/-- `api.getConfig`: returns `request(...)` for the `/config` response with no
error handling of its own. -/
def apiGetConfig (r : HttpResponse) : Except String String := request r

/-- `api.postConfig`: returns `request(...)` for the `/config` POST response
with no error handling of its own. -/
def apiPostConfig (r : HttpResponse) : Except String String := request r

/-- `api.getSunburn`: returns `request(...)` for the `/sunburn` response with
no error handling of its own. -/
def apiGetSunburn (r : HttpResponse) : Except String String := request r

/-- `api.getPostmortem`: returns `request(...)` for the `/postmortem` response
with no error handling of its own. -/
def apiGetPostmortem (r : HttpResponse) : Except String String := request r

/-- `api.getRecovery`: returns `request(...)` for the `/recovery` response
with no error handling of its own. -/
def apiGetRecovery (r : HttpResponse) : Except String String := request r

/-- `api.grayscale`: returns `request(...)` for the `/grayscale` POST response
with no error handling of its own. -/
def apiGrayscale (r : HttpResponse) : Except String String := request r

/-- `api.getTodos`: returns `request(...)` for the `/todos` response with no
error handling of its own. -/
def apiGetTodos (r : HttpResponse) : Except String String := request r

/-- `api.addTodo`: returns `request(...)` for the `/todos` POST response with
no error handling of its own. -/
def apiAddTodo (r : HttpResponse) : Except String String := request r

/-- `api.toggleTodo`: returns `request(...)` for the `/todos/:id` PATCH
response with no error handling of its own. -/
def apiToggleTodo (r : HttpResponse) : Except String String := request r

/-- `api.deleteTodo`: returns `request(...)` for the `/todos/:id` DELETE
response with no error handling of its own. -/
def apiDeleteTodo (r : HttpResponse) : Except String String := request r

/-! ## Frontend: dashboard rendering (`src/unnamed/part_000`, `App.jsx`)

Lines 203–206 compute `fatigueLevel`, `fuelLevel` and the status `level`;
lines 226–243 render the two gauge bars with width `Math.min(100, value)%`. -/

/-- The fields of the `/api/metrics` JSON payload that the gauge section
reads.  Fields may be absent (`Option`), matching the `??` defaulting in the
source. -/
structure MetricsPayload where
  fatigue_score : Option ℚ
  fuel_gauge : Option ℚ
  is_baseline_mode : Bool

/-- `const fatigueLevel = metrics?.fatigue_score ?? 0`. -/
def dashFatigueLevel (metrics : Option MetricsPayload) : ℚ :=
  match metrics with
  | none => 0
  | some m => m.fatigue_score.getD 0

/-- `const fuelLevel = metrics?.fuel_gauge ?? 100`. -/
def dashFuelLevel (metrics : Option MetricsPayload) : ℚ :=
  match metrics with
  | none => 100
  | some m => m.fuel_gauge.getD 100

/-- The three CSS status classes of the fuel-gauge section. -/
inductive FatigueUiLevel
  | healthy
  | moderate
  | critical
deriving DecidableEq, Repr

/-- `fatigueLevel < 30 ? 'healthy' : fatigueLevel < 60 ? 'moderate' :
'critical'`. -/
def fatigueUiLevel (f : ℚ) : FatigueUiLevel :=
  if f < 30 then FatigueUiLevel.healthy
  else if f < 60 then FatigueUiLevel.moderate
  else FatigueUiLevel.critical

/-- What the gauge section of the dashboard renders from one metrics
payload. -/
structure GaugeRender where
  fatigueWidthPct : ℚ
  fuelWidthPct : ℚ
  level : FatigueUiLevel
deriving DecidableEq, Repr

/-- The gauge section (`App.jsx` lines 203–243): bar widths are
`Math.min(100, value)` percent and the status class comes from
`fatigueUiLevel`. -/
def renderGauges (metrics : Option MetricsPayload) : GaugeRender :=
  let f := dashFatigueLevel metrics
  let fuel := dashFuelLevel metrics
  { fatigueWidthPct := min 100 f
    fuelWidthPct := min 100 fuel
    level := fatigueUiLevel f }

/-! ## Frontend: browser fatigue notifications (`src/unnamed/part_000`)

`maybeShowFatigueNotification` holds two refs: `lastNotificationRef`
(initially 0) and `notifiedAboveRef` (initially false), with a 15-minute
cooldown and a threshold of 70.  `fetchMetrics` invokes it only when the
payload has a non-null `fatigue_score` and `is_baseline_mode` is falsy. -/

/-- `const NOTIFICATION_COOLDOWN_MS = 15 * 60 * 1000`. -/
def NOTIFICATION_COOLDOWN_MS : ℚ := 15 * 60 * 1000

/-- `const FATIGUE_NOTIFY_THRESHOLD = 70`. -/
def FATIGUE_NOTIFY_THRESHOLD : ℚ := 70

/-- The two refs of the notification logic: `lastNotificationRef.current`
(epoch milliseconds, initially 0) and `notifiedAboveRef.current`. -/
structure NotifyState where
  lastNotificationAt : ℚ
  notifiedAbove : Bool
deriving DecidableEq, Repr

/-- The refs' initial values: `useRef(0)` and `useRef(false)`. -/
def initNotifyState : NotifyState :=
  { lastNotificationAt := 0, notifiedAbove := false }

/-- `maybeShowFatigueNotification(fatigueScore)` at time `now` (=`Date.now()`).
`canNotify` models `('Notification' in window) && Notification.permission ===
'granted'`; `ctorOk` models the `new Notification(...)` constructor not
throwing (on a throw the `catch` ignores it and neither ref is updated).
Returns whether a notification was shown, and the refs afterwards. -/
def maybeShowFatigueNotification (canNotify ctorOk : Bool) (now fatigueScore : ℚ)
    (s : NotifyState) : Bool × NotifyState :=
  if fatigueScore < FATIGUE_NOTIFY_THRESHOLD then
    (false, { s with notifiedAbove := false })
  else if !canNotify then
    (false, s)
  else if !(!s.notifiedAbove
      || decide (now - s.lastNotificationAt > NOTIFICATION_COOLDOWN_MS)) then
    (false, s)
  else if ctorOk then
    (true, { lastNotificationAt := now, notifiedAbove := true })
  else
    (false, s)

/-- The notification path of `fetchMetrics`: calls
`maybeShowFatigueNotification(data.fatigue_score)` only when
`data?.fatigue_score != null && !data?.is_baseline_mode`. -/
def fetchMetricsNotify (canNotify ctorOk : Bool) (now : ℚ) (data : MetricsPayload)
    (s : NotifyState) : Bool × NotifyState :=
  match data.fatigue_score with
  | none => (false, s)
  | some sc =>
    if data.is_baseline_mode then (false, s)
    else maybeShowFatigueNotification canNotify ctorOk now sc s

/-- Processing a timed sequence of metrics responses through `fetchMetrics`:
returns the number of notifications shown and the final refs. -/
def notifyRun (canNotify ctorOk : Bool) (s : NotifyState) :
    List (ℚ × MetricsPayload) → Nat × NotifyState
  | [] => (0, s)
  | (t, data) :: rest =>
    let step := fetchMetricsNotify canNotify ctorOk t data s
    let next := notifyRun canNotify ctorOk step.2 rest
    ((if step.1 then 1 else 0) + next.1, next.2)

/-! ## Backend: signal trackers

The backend sources (`backend/server/monitor.py`, `backend/server/app.py`)
are not among the available files, so every definition in the backend
sections is modelled from the specification's description of them and is
marked accordingly. -/

/-- Modelled from the spec: the bounded rolling-window capacity ("a window of
the last 50 accepted intervals"). -/
def WINDOW_CAP : Nat := 50

/-- Modelled from the spec: push-evict on a bounded rolling window — append
on the right, evict from the left beyond the capacity `cap`. -/
def pushWindow (cap : Nat) (w : List ℚ) (x : ℚ) : List ℚ :=
  if cap < w.length + 1 then (w ++ [x]).drop (w.length + 1 - cap) else w ++ [x]

/-- The last at-most-`n` elements of a list, in order. -/
def lastN (n : Nat) (l : List ℚ) : List ℚ :=
  l.drop (l.length - n)

/-- Population mean of a list of rationals (0 on the empty list, since
division by zero is 0 in `ℚ`). -/
def popMean (l : List ℚ) : ℚ :=
  l.sum / l.length

/-- Population variance of a list of rationals: the mean squared deviation
from the mean.  The tracker's exposed `latencyStd` is the square root of
this quantity, so two windows with equal contents have equal `latencyStd`. -/
def popVariance (l : List ℚ) : ℚ :=
  (l.map (fun x => (x - popMean l) ^ 2)).sum / l.length

/-- A KeyDown event as the keystroke-latency tracker sees it: whether the key
is modifier-only (Ctrl/Alt/Shift/Win), whether it is backspace-class, and its
timestamp in milliseconds. -/
structure KeyEvent where
  isModifier : Bool
  isBackspace : Bool
  t : ℚ
deriving DecidableEq, Repr

/-- Modelled from the spec (missing `monitor.py`, `FatigueSignatureTracker`):
state of the keystroke-latency tracker — timestamp of the previous
non-modifier KeyDown, the rolling window of the last ≤ 50 accepted
inter-keystroke intervals (oldest first), and the running backspace and
keystroke counts. -/
structure KeystrokeLatencyTracker where
  prevAt : Option ℚ
  window : List ℚ
  backspaces : Nat
  totalKeystrokes : Nat
deriving DecidableEq, Repr

/-- Modelled from the spec: the keystroke tracker's initial (empty) state. -/
def initKeystrokeTracker : KeystrokeLatencyTracker :=
  { prevAt := none, window := [], backspaces := 0, totalKeystrokes := 0 }

/-- Modelled from the spec: whether an inter-keystroke interval is accepted
("accepts the interval only if in [20ms, 2000ms]"). -/
def acceptsInterval (d : ℚ) : Bool :=
  decide (20 ≤ d) && decide (d ≤ 2000)

/-- Modelled from the spec (missing `monitor.py`): the keystroke tracker's
KeyDown handler.  Modifier-only keys are discarded entirely; otherwise the
interval from the previous KeyDown is accepted into the window when in
range, the previous-timestamp is updated, and the backspace/total counters
advance. -/
def KeystrokeLatencyTracker.onKeyDown (s : KeystrokeLatencyTracker)
    (e : KeyEvent) : KeystrokeLatencyTracker :=
  if e.isModifier then s
  else
    let window :=
      match s.prevAt with
      | none => s.window
      | some p =>
        let d := e.t - p
        if acceptsInterval d then pushWindow WINDOW_CAP s.window d else s.window
    { prevAt := some e.t
      window := window
      backspaces := s.backspaces + (if e.isBackspace then 1 else 0)
      totalKeystrokes := s.totalKeystrokes + 1 }

/-- Modelled from the spec: `errorRateProxy = backspaces/totalKeystrokes`
(0 when `totalKeystrokes = 0`). -/
def KeystrokeLatencyTracker.errorRateProxy (s : KeystrokeLatencyTracker) : ℚ :=
  if s.totalKeystrokes = 0 then 0
  else (s.backspaces : ℚ) / (s.totalKeystrokes : ℚ)

/-- The tracker after processing a whole event sequence from the empty
state. -/
def runKeystrokeTracker (es : List KeyEvent) : KeystrokeLatencyTracker :=
  es.foldl KeystrokeLatencyTracker.onKeyDown initKeystrokeTracker

/-! Specification-side recomputation of what the tracker should hold, written
directly from the spec's words and independent of the stateful fold: the
accepted samples are the in-range inter-keystroke intervals between
consecutive non-modifier KeyDown events, and the window holds exactly the
last ≤ 50 of them in arrival order. -/

/-- Consecutive differences of a list of timestamps. -/
def diffs : List ℚ → List ℚ
  | [] => []
  | [_] => []
  | a :: b :: rest => (b - a) :: diffs (b :: rest)

/-- The timestamps of the non-modifier KeyDown events, in arrival order. -/
def nonModifierTimes (es : List KeyEvent) : List ℚ :=
  (es.filter (fun e => !e.isModifier)).map KeyEvent.t

/-- Specification-side list of accepted inter-keystroke intervals of an event
sequence: consecutive differences of non-modifier timestamps, filtered to
[20ms, 2000ms]. -/
def specAcceptedIntervals (es : List KeyEvent) : List ℚ :=
  (diffs (nonModifierTimes es)).filter acceptsInterval

/-- Specification-side error-rate proxy: backspace-class keystrokes over all
(non-modifier) keystrokes, 0 when there were none. -/
def specErrorRateProxy (es : List KeyEvent) : ℚ :=
  let total := (es.filter (fun e => !e.isModifier)).length
  let backs := (es.filter (fun e => !e.isModifier && e.isBackspace)).length
  if total = 0 then 0 else (backs : ℚ) / (total : ℚ)

/-! Other signal trackers, needed to state what recalibration resets. -/

/-- Modelled from the spec (missing `monitor.py`, `HoldDurationTracker`):
press time per key identity (last press wins) and a 50-sample window of
accepted hold durations. -/
structure HoldDurationTracker where
  pressAt : List (String × ℚ)
  window : List ℚ
deriving DecidableEq, Repr

/-- Modelled from the spec: the hold tracker's initial (empty) state. -/
def initHoldTracker : HoldDurationTracker :=
  { pressAt := [], window := [] }

/-- Modelled from the spec: on KeyDown, store the press time keyed by key
identity; a repeated press before release overwrites (last press wins). -/
def HoldDurationTracker.onKeyDown (s : HoldDurationTracker) (key : String)
    (t : ℚ) : HoldDurationTracker :=
  { s with pressAt := (key, t) :: s.pressAt.filter (fun p => p.1 ≠ key) }

/-- Modelled from the spec: on KeyUp compute `release_t - press_t` and accept
into the 50-sample window when in [10ms, 2000ms]. -/
def HoldDurationTracker.onKeyUp (s : HoldDurationTracker) (key : String)
    (t : ℚ) : HoldDurationTracker :=
  match s.pressAt.find? (fun p => p.1 = key) with
  | none => s
  | some p =>
    let d := t - p.2
    { pressAt := s.pressAt.filter (fun q => q.1 ≠ key)
      window :=
        if decide (10 ≤ d) && decide (d ≤ 2000) then pushWindow WINDOW_CAP s.window d
        else s.window }

/-- Modelled from the spec (missing `monitor.py`, `ContextSwitchTracker`):
the previously seen window title and the timestamps of title changes. -/
structure ContextSwitchTracker where
  lastTitle : Option String
  switchTimes : List ℚ
deriving DecidableEq, Repr

/-- Modelled from the spec: the context-switch tracker's initial state. -/
def initContextTracker : ContextSwitchTracker :=
  { lastTitle := none, switchTimes := [] }

/-- Modelled from the spec: on a FocusChange event, append a timestamp only
when the new title differs from the previous one. -/
def ContextSwitchTracker.onFocusChange (s : ContextSwitchTracker)
    (title : String) (t : ℚ) : ContextSwitchTracker :=
  if s.lastTitle = some title then s
  else { lastTitle := some title, switchTimes := s.switchTimes ++ [t] }

/-- Modelled from the spec: `switchesPerMinute` = count of switch timestamps
in the last 60 seconds. -/
def ContextSwitchTracker.switchesPerMinute (s : ContextSwitchTracker)
    (now : ℚ) : ℚ :=
  ((s.switchTimes.filter (fun t => decide (now - t ≤ 60))).length : ℚ)

/-- Modelled from the spec (missing `monitor.py`, `MicroScrollTrapTracker`):
scroll-event timestamps over a 120-second window. -/
structure ScrollTrapTracker where
  scrollTimes : List ℚ
deriving DecidableEq, Repr

/-- Modelled from the spec: the scroll-trap tracker's initial state. -/
def initScrollTracker : ScrollTrapTracker :=
  { scrollTimes := [] }

/-- Modelled from the spec: record one scroll tick. -/
def ScrollTrapTracker.onScroll (s : ScrollTrapTracker) (t : ℚ) :
    ScrollTrapTracker :=
  { scrollTimes := s.scrollTimes ++ [t] }

/-- Modelled from the spec: scrolls per minute over the 120-second window. -/
def ScrollTrapTracker.scrollsPerMinute (s : ScrollTrapTracker) (now : ℚ) : ℚ :=
  ((s.scrollTimes.filter (fun t => decide (now - t ≤ 120))).length : ℚ) / 2

/-- Modelled from the spec: `trapDetected = scrollsPerMinute ≥ 25`. -/
def ScrollTrapTracker.trapDetected (s : ScrollTrapTracker) (now : ℚ) : Bool :=
  decide (25 ≤ s.scrollsPerMinute now)

/-- Modelled from the spec (missing `monitor.py`, `IdleTracker`): timestamp
of the last key/scroll/click activity. -/
structure IdleTracker where
  lastActivityAt : ℚ
deriving DecidableEq, Repr

/-- Modelled from the spec: any KeyDown/Scroll/Click updates
`lastActivityAt`. -/
def IdleTracker.onActivity (_ : IdleTracker) (t : ℚ) : IdleTracker :=
  { lastActivityAt := t }

/-- Modelled from the spec: `idleMinutes = (now - lastActivityAt)/60`. -/
def IdleTracker.idleMinutes (s : IdleTracker) (now : ℚ) : ℚ :=
  (now - s.lastActivityAt) / 60

/-- Modelled from the spec: `idleDetected = idleMinutes ≥ 10`. -/
def IdleTracker.idleDetected (s : IdleTracker) (now : ℚ) : Bool :=
  decide (10 ≤ s.idleMinutes now)

/-! ## Backend: baseline profile and fatigue scorer -/

/-- Modelled from the spec: the personalized baseline statistics snapshotted
at calibration. -/
structure BaselineProfile where
  latencyStdBaseline : ℚ
  errorRateBaseline : ℚ
  holdStdBaseline : ℚ
  calibratedAt : ℚ
deriving DecidableEq, Repr

/-- The tracker statistics the scorer consumes, as snapshotted at one
`Sample()` call. -/
structure Readouts where
  latencyStd : ℚ
  latencyMean : ℚ
  errorRateProxy : ℚ
  holdStd : ℚ
  switchesPerMinute : ℚ
  trapDetected : Bool
  idleDetected : Bool
  cognitiveLoad : ℚ
deriving DecidableEq, Repr

/-- A capped linear ramp: 0 at or below `lo`, `cap` at or above `hi`, linear
in between. -/
def scaledCap (cap lo hi x : ℚ) : ℚ :=
  if x ≤ lo then 0
  else if hi ≤ x then cap
  else cap * (x - lo) / (hi - lo)

/-- Modelled from the spec: the time-of-day multiplier — 1.0 for local hours
[10,18), 1.05 for [6,10) and [18,22), 1.25 for [22,6). -/
def timeOfDayFactor (hour : ℚ) : ℚ :=
  if 10 ≤ hour ∧ hour < 18 then 1
  else if (6 ≤ hour ∧ hour < 10) ∨ (18 ≤ hour ∧ hour < 22) then 21 / 20
  else 5 / 4

/-- Modelled from the spec: session-duration contribution — 0 below 60
minutes, up to +8 for 60–120 minutes, up to +15 beyond 120 minutes, a
monotonic step function.  (The spec fixes the caps and breakpoints but not
the in-segment slopes; linear ramps are chosen.) -/
def sessionContribution (elapsedMin : ℚ) : ℚ :=
  if elapsedMin < 60 then 0
  else if elapsedMin < 120 then 8 * (elapsedMin - 60) / 60
  else min 15 (8 + 7 * (elapsedMin - 120) / 60)

/-- Modelled from the spec (missing `monitor.py`/`app.py` scoring): the pure
fatigue scorer.  With no baseline profile it returns `(0, 100)` immediately;
otherwise it sums the capped deviation contributions, scales by the
time-of-day factor, and derives the fuel gauge
`clamp(100 − 0.35·fatigue − 18·cognitiveLoad − sessionDecrement, 0, 100)`.
(The spec leaves each ramp's upper multiple and the exact session decrement
unspecified; 2.0×/3.0×/2.0× upper multiples and `elapsedMin/12` are
chosen.) -/
def fatigueScorer (baseline : Option BaselineProfile) (r : Readouts)
    (hour elapsedMin : ℚ) : ℚ × ℚ :=
  match baseline with
  | none => (0, 100)
  | some b =>
    let latC := scaledCap 30 (12 / 10 * b.latencyStdBaseline)
      (2 * b.latencyStdBaseline) r.latencyStd
    let errC := scaledCap 20 (3 / 2 * b.errorRateBaseline)
      (3 * b.errorRateBaseline) r.errorRateProxy
    let holdC := scaledCap 10 (13 / 10 * b.holdStdBaseline)
      (2 * b.holdStdBaseline) r.holdStd
    let ctxC := scaledCap 20 8 16 r.switchesPerMinute
    let scrollC := if r.trapDetected then (12 : ℚ) else 0
    let idleC := if r.idleDetected then (10 : ℚ) else 0
    let raw := latC + errC + holdC + ctxC + scrollC + idleC
      + sessionContribution elapsedMin
    let score := raw * timeOfDayFactor hour
    let fuel := max 0 (min 100
      (100 - 35 / 100 * score - 18 * r.cognitiveLoad - elapsedMin / 12))
    (score, fuel)

/-! ## Backend: intervention engine -/

/-- The configured enforcement level. -/
inductive Enforcement
  | low
  | medium
  | high
deriving DecidableEq, Repr

/-- Modelled from the spec: the mutable intervention state of one running
session. -/
structure InterventionState where
  grayscaleOn : Bool
  lastGrayscaleAutoToggleAt : Option ℚ
  lastWebhookFiredAt : Option ℚ
  panicUntil : Option ℚ
deriving DecidableEq, Repr

/-- Modelled from the spec: a fresh session's intervention state. -/
def initInterventionState : InterventionState :=
  { grayscaleOn := false
    lastGrayscaleAutoToggleAt := none
    lastWebhookFiredAt := none
    panicUntil := none }

/-- Modelled from the spec: a panic override is active while
`now < panicUntil`. -/
def panicActive (now : ℚ) (s : InterventionState) : Bool :=
  match s.panicUntil with
  | none => false
  | some u => decide (now < u)

/-- Modelled from the spec: the auto-grayscale score threshold per
enforcement level — none for low, 90 for medium, 80 for high. -/
def grayscaleThreshold : Enforcement → Option ℚ
  | Enforcement.low => none
  | Enforcement.medium => some 90
  | Enforcement.high => some 80

/-- Modelled from the spec: at least 30 minutes since the last auto-toggle
(vacuously satisfied when there has been none). -/
def grayscaleCooldownOk (now : ℚ) (s : InterventionState) : Bool :=
  match s.lastGrayscaleAutoToggleAt with
  | none => true
  | some t => decide (30 * 60 ≤ now - t)

/-- Modelled from the spec (`_maybe_auto_grayscale` in the missing
`app.py`): auto-grayscale triggers when enforcement is not low, the score
meets the per-level threshold, no panic override is active, grayscale is
currently off, and the 30-minute cooldown has passed. -/
def autoGrayscaleTriggers (now score : ℚ) (enf : Enforcement)
    (s : InterventionState) : Bool :=
  match grayscaleThreshold enf with
  | none => false
  | some th =>
    decide (th ≤ score) && !panicActive now s && !s.grayscaleOn
      && grayscaleCooldownOk now s

/-- Modelled from the spec: `sludgeActive = (enforcement==high) AND
(score≥70) AND (not panic) AND (not calibrating)`. -/
def sludgeActive (now score : ℚ) (enf : Enforcement) (calibrating : Bool)
    (s : InterventionState) : Bool :=
  decide (enf = Enforcement.high) && decide (70 ≤ score)
    && !panicActive now s && !calibrating

/-- Modelled from the spec: at least 600 seconds since the last
fatigue-webhook firing (vacuously satisfied when there has been none). -/
def webhookCooldownOk (now : ℚ) (s : InterventionState) : Bool :=
  match s.lastWebhookFiredAt with
  | none => true
  | some t => decide (600 ≤ now - t)

/-- Modelled from the spec (`_maybe_fire_webhook` in the missing `app.py`):
the fatigue webhook fires when `score ≥ 85` and the 600-second cooldown has
passed. -/
def webhookFires (now score : ℚ) (s : InterventionState) : Bool :=
  decide (85 ≤ score) && webhookCooldownOk now s

/-- The outcome of one intervention pass: whether each side effect was
attempted, whether sludge delays the response, and the intervention state
afterwards. -/
structure InterventionResult where
  grayscaleTriggered : Bool
  webhookFired : Bool
  sludge : Bool
  state : InterventionState
deriving DecidableEq, Repr

/-- Modelled from the spec: one intervention pass of `Sample()`, after
scoring.  `grayscaleCallOk` and `webhookCallOk` are the outcomes of the
side-effecting collaborator calls (display filter, webhook transport): a
failed call is caught, never aborts the pass, and leaves the corresponding
cooldown timestamp untouched; a successful one records the toggle/firing
time. -/
def interventionStep (now score : ℚ) (enf : Enforcement) (calibrating : Bool)
    (grayscaleCallOk webhookCallOk : Bool) (s : InterventionState) :
    InterventionResult :=
  let g := autoGrayscaleTriggers now score enf s
  let w := webhookFires now score s
  let s1 :=
    if g && grayscaleCallOk then
      { s with grayscaleOn := true, lastGrayscaleAutoToggleAt := some now }
    else s
  let s2 :=
    if w && webhookCallOk then { s1 with lastWebhookFiredAt := some now }
    else s1
  { grayscaleTriggered := g
    webhookFired := w
    sludge := sludgeActive now score enf calibrating s
    state := s2 }

/-- The result of `RequestPanic()`: the new intervention state, plus the
unconditional panic webhook dispatch and the persisted panic record. -/
structure PanicResult where
  state : InterventionState
  panicWebhookFired : Bool
  panicRecordAppended : Bool
  panicUntilReturned : ℚ
deriving DecidableEq, Repr

/-- Modelled from the spec: `RequestPanic()` sets `panicUntil = now + 15min`,
unconditionally dispatches a webhook event (no cooldown consulted, no
cooldown updated), and appends one panic record. -/
def requestPanic (now : ℚ) (s : InterventionState) : PanicResult :=
  { state := { s with panicUntil := some (now + 15 * 60) }
    panicWebhookFired := true
    panicRecordAppended := true
    panicUntilReturned := now + 15 * 60 }

/-! ## Backend: monitor session — `Sample()`, `Recalibrate()` -/

/-- The session's configuration view relevant to sampling. -/
structure Config where
  enforcement : Enforcement
  baselineMinutes : ℚ
deriving DecidableEq, Repr

/-- Modelled from the spec: the full state one `AuraMonitor` session owns —
all signal trackers, the calibrator's baseline, the session clock, and the
intervention state. -/
structure MonitorState where
  keystroke : KeystrokeLatencyTracker
  hold : HoldDurationTracker
  context : ContextSwitchTracker
  scroll : ScrollTrapTracker
  idle : IdleTracker
  baseline : Option BaselineProfile
  sessionStart : ℚ
  intervention : InterventionState
deriving DecidableEq, Repr

/-- Modelled from the spec: a fresh monitor at time `now`, optionally seeded
with a persisted baseline profile (absent ⇒ calibration mode). -/
def initMonitor (now : ℚ) (persisted : Option BaselineProfile) : MonitorState :=
  { keystroke := initKeystrokeTracker
    hold := initHoldTracker
    context := initContextTracker
    scroll := initScrollTracker
    idle := { lastActivityAt := now }
    baseline := persisted
    sessionStart := now
    intervention := initInterventionState }

/-- The metrics snapshot one `Sample()` call returns. -/
structure MetricsSnapshot where
  fatigue_score : ℚ
  fuel_gauge : ℚ
  is_baseline_mode : Bool
  sludge_active : Bool
  grayscale_triggered : Bool
  webhook_fired : Bool
deriving DecidableEq, Repr

/-- Modelled from the spec: the calibrator step run inside `Sample()`.
While no profile is held and the elapsed session time is below the
configured window, the session stays calibrating; at or after the
threshold it snapshots the current tracker statistics as the new
baseline profile. -/
def calibratorStep (cfg : Config) (now : ℚ) (r : Readouts)
    (m : MonitorState) : MonitorState :=
  match m.baseline with
  | some _ => m
  | none =>
    if cfg.baselineMinutes ≤ (now - m.sessionStart) / 60 then
      let b : BaselineProfile :=
        { latencyStdBaseline := r.latencyStd
          errorRateBaseline := r.errorRateProxy
          holdStdBaseline := r.holdStd
          calibratedAt := now }
      { m with baseline := some b }
    else m

/-- Modelled from the spec: one `Sample()` call.  It runs the calibrator
step, scores the snapshotted tracker readouts `r` with the pure fatigue
scorer, runs the intervention engine (whose collaborator calls may fail
without aborting the pipeline), and returns the metrics snapshot together
with the session state afterwards. -/
def sample (cfg : Config) (now hour : ℚ) (r : Readouts)
    (grayscaleCallOk webhookCallOk : Bool) (m : MonitorState) :
    MetricsSnapshot × MonitorState :=
  let m1 := calibratorStep cfg now r m
  let isBaseline := m1.baseline.isNone
  let scored := fatigueScorer m1.baseline r hour ((now - m1.sessionStart) / 60)
  let step := interventionStep now scored.1 cfg.enforcement isBaseline
    grayscaleCallOk webhookCallOk m1.intervention
  ({ fatigue_score := scored.1
     fuel_gauge := scored.2
     is_baseline_mode := isBaseline
     sludge_active := step.sludge
     grayscale_triggered := step.grayscaleTriggered
     webhook_fired := step.webhookFired },
   { m1 with intervention := step.state })

/-- Modelled from the spec: an explicit `Recalibrate()` request — discards
the current baseline profile, resets every signal tracker's window to
empty, resets the session clock to now, and re-enters calibration (the
session state is reconstructed as a fresh monitor with no baseline). -/
def recalibrate (now : ℚ) (_ : MonitorState) : MonitorState :=
  initMonitor now none

/-! ## Theorems -/

/-- C9: the API client's `request` resolves with the parsed JSON body exactly
when the response status is ok (2xx), and otherwise throws an `Error` whose
message contains the HTTP status code; the api methods add no error handling
of their own, so every endpoint call rejects to its caller on a non-2xx
status. -/
theorem request_resolves_iff_ok (r : HttpResponse) :
    ((∃ b, request r = Except.ok b) ↔ r.ok = true)
    ∧ (r.ok = true → request r = Except.ok r.jsonBody)
    ∧ (r.ok = false → ∃ msg, request r = Except.error msg
        ∧ List.IsInfix (toString r.status).data msg.data)
    ∧ (r.ok = false →
        exceptIsOk (apiGetStatus r) = false
        ∧ exceptIsOk (apiGetMetrics r) = false
        ∧ exceptIsOk (apiGetHistory r) = false
        ∧ exceptIsOk (apiPanic r) = false
        ∧ exceptIsOk (apiRecalibrate r) = false
        ∧ exceptIsOk (apiGetConfig r) = false
        ∧ exceptIsOk (apiPostConfig r) = false
        ∧ exceptIsOk (apiGetSunburn r) = false
        ∧ exceptIsOk (apiGetPostmortem r) = false
        ∧ exceptIsOk (apiGetRecovery r) = false
        ∧ exceptIsOk (apiGrayscale r) = false
        ∧ exceptIsOk (apiGetTodos r) = false
        ∧ exceptIsOk (apiAddTodo r) = false
        ∧ exceptIsOk (apiToggleTodo r) = false
        ∧ exceptIsOk (apiDeleteTodo r) = false) := by
  cases hok : r.ok with
  | true =>
    refine ⟨⟨fun _ => rfl, fun _ => ⟨r.jsonBody, by simp [request, hok]⟩⟩,
      fun _ => by simp [request, hok], fun h => by simp at h, fun h => by simp at h⟩
  | false =>
    refine ⟨⟨fun hex => ?_, fun h => by simp at h⟩, fun h => by simp at h,
      fun _ => ⟨"API " ++ toString r.status ++ ": " ++ r.statusText,
        by simp [request, hok],
        ⟨"API ".data, (": " ++ r.statusText).data, by
          simp [String.data_append, List.append_assoc]⟩⟩,
      fun _ => by
        simp [apiGetStatus, apiGetMetrics, apiGetHistory, apiPanic,
          apiRecalibrate, apiGetConfig, apiPostConfig, apiGetSunburn,
          apiGetPostmortem, apiGetRecovery, apiGrayscale, apiGetTodos,
          apiAddTodo, apiToggleTodo, apiDeleteTodo, request, hok, exceptIsOk]⟩
    obtain ⟨b, hb⟩ := hex
    simp [request, hok] at hb

/-- Witness for C9 at a concrete non-2xx response: the call rejects and the
message carries the status code. -/
theorem request_resolves_iff_ok_witness :
    HttpResponse.ok { status := 404, statusText := "Not Found", jsonBody := "x" } = false
    ∧ (∃ msg, request { status := 404, statusText := "Not Found", jsonBody := "x" }
        = Except.error msg
        ∧ List.IsInfix (toString (404 : Nat)).data msg.data) := by
  refine ⟨by decide, ?_⟩
  exact (request_resolves_iff_ok
    { status := 404, statusText := "Not Found", jsonBody := "x" }).2.2.1 (by decide)

/-- C10: the dashboard renders the fatigue and fuel bar widths as
`min(100, value)` percent, classifies the status as healthy/moderate/critical
by the 30 and 60 thresholds, and defaults a missing fatigue to 0 and a
missing fuel to 100. -/
theorem dashboard_gauge_rendering (f u : ℚ) (b : Bool) (p : MetricsPayload) :
    (renderGauges (some
      { fatigue_score := some f, fuel_gauge := some u, is_baseline_mode := b })).fatigueWidthPct
        = min 100 f
    ∧ (renderGauges (some
      { fatigue_score := some f, fuel_gauge := some u, is_baseline_mode := b })).fuelWidthPct
        = min 100 u
    ∧ (fatigueUiLevel f = FatigueUiLevel.healthy ↔ f < 30)
    ∧ (fatigueUiLevel f = FatigueUiLevel.moderate ↔ 30 ≤ f ∧ f < 60)
    ∧ (fatigueUiLevel f = FatigueUiLevel.critical ↔ 60 ≤ f)
    ∧ (renderGauges (some p)).level = fatigueUiLevel (dashFatigueLevel (some p))
    ∧ dashFatigueLevel (some
        { fatigue_score := none, fuel_gauge := none, is_baseline_mode := b }) = 0
    ∧ dashFuelLevel (some
        { fatigue_score := none, fuel_gauge := none, is_baseline_mode := b }) = 100 := by
  refine ⟨rfl, rfl, ?_, ?_, ?_, rfl, rfl, rfl⟩ <;>
  · unfold fatigueUiLevel
    split_ifs with h1 h2 <;> simp_all <;> linarith

/-- If the notification fired at time `now`, the refs afterwards hold `now`
and the above-threshold flag. -/
theorem maybeShow_fired_state (c k : Bool) (now sc : ℚ) (s : NotifyState)
    (h : (maybeShowFatigueNotification c k now sc s).1 = true) :
    (maybeShowFatigueNotification c k now sc s).2
      = { lastNotificationAt := now, notifiedAbove := true } := by
  unfold maybeShowFatigueNotification at h ⊢
  split_ifs at h ⊢
  all_goals simp_all

/-- If the notification path fired while processing a metrics response at
time `now`, the refs afterwards hold `now` and the above-threshold flag. -/
theorem fetchMetricsNotify_fired_state (c k : Bool) (now : ℚ) (d : MetricsPayload)
    (s : NotifyState) (h : (fetchMetricsNotify c k now d s).1 = true) :
    (fetchMetricsNotify c k now d s).2
      = { lastNotificationAt := now, notifiedAbove := true } := by
  cases hd : d.fatigue_score with
  | none => simp [fetchMetricsNotify, hd] at h
  | some sc =>
    cases hB : d.is_baseline_mode with
    | true => simp [fetchMetricsNotify, hd, hB] at h
    | false =>
      have h2 : (maybeShowFatigueNotification c k now sc s).1 = true := by
        simpa [fetchMetricsNotify, hd, hB] using h
      simp [fetchMetricsNotify, hd, hB, maybeShow_fired_state c k now sc s h2]

/-- A run over responses whose scores (when present) stay at or above 70 and
whose times stay within the cooldown of the last firing shows nothing and
leaves the refs unchanged. -/
theorem notifyRun_quiet (c k : Bool) (t0 : ℚ) (l : List (ℚ × MetricsPayload))
    (hl : ∀ p ∈ l, (∀ sc, p.2.fatigue_score = some sc → 70 ≤ sc)
      ∧ p.1 - t0 ≤ NOTIFICATION_COOLDOWN_MS) :
    notifyRun c k { lastNotificationAt := t0, notifiedAbove := true } l
      = (0, { lastNotificationAt := t0, notifiedAbove := true }) := by
  induction l with
  | nil => rfl
  | cons p rest ih =>
    obtain ⟨hsc, ht⟩ := hl p (List.mem_cons_self p rest)
    have hstep : fetchMetricsNotify c k p.1 p.2
        { lastNotificationAt := t0, notifiedAbove := true }
        = (false, { lastNotificationAt := t0, notifiedAbove := true }) := by
      unfold fetchMetricsNotify maybeShowFatigueNotification
      cases hd : p.2.fatigue_score with
      | none => rfl
      | some sc =>
        have h70 : ¬ (sc < FATIGUE_NOTIFY_THRESHOLD) := by
          unfold FATIGUE_NOTIFY_THRESHOLD
          exact not_lt.mpr (hsc sc hd)
        have hcool : ¬ (p.1 - t0 > NOTIFICATION_COOLDOWN_MS) := not_lt.mpr ht
        by_cases hb : p.2.is_baseline_mode
        · simp [hb]
        · cases c <;> simp [hb, h70, hcool]
    rw [notifyRun, hstep]
    simp [ih (fun p hp => hl p (List.mem_cons_of_mem _ hp))]

/-- C8 counterexample: the claim says every response with `fatigue_score < 70`
clears the above-threshold flag, but a baseline-mode response never reaches
`maybeShowFatigueNotification` (`fetchMetrics` guards on
`!data?.is_baseline_mode`), so a baseline response scoring 0 leaves the flag
set, and the next above-threshold response within the cooldown is not
notified. -/
theorem baseline_response_does_not_clear_flag :
    (fetchMetricsNotify true true 1000
      { fatigue_score := some 0, fuel_gauge := some 100, is_baseline_mode := true }
      { lastNotificationAt := 900, notifiedAbove := true }).2.notifiedAbove = true
    ∧ (fetchMetricsNotify true true 2000
      { fatigue_score := some 90, fuel_gauge := some 40, is_baseline_mode := false }
      (fetchMetricsNotify true true 1000
        { fatigue_score := some 0, fuel_gauge := some 100, is_baseline_mode := true }
        { lastNotificationAt := 900, notifiedAbove := true }).2).1 = false := by
  constructor
  · rfl
  · norm_num [fetchMetricsNotify, maybeShowFatigueNotification,
      NOTIFICATION_COOLDOWN_MS, FATIGUE_NOTIFY_THRESHOLD]

/-- C8 (amended): a fatigue notification is shown only for a response with
`fatigue_score ≥ 70` and `is_baseline_mode` false; after a notification
fires, no further notification is shown while subsequent responses stay at
score ≥ 70 within 15 minutes of the firing; and whenever a non-baseline
response with `fatigue_score < 70` arrives, the above-threshold flag is
cleared, so the next non-baseline response with `fatigue_score ≥ 70`
notifies immediately (given granted permission and a working Notification
constructor) even inside the 15-minute cooldown. -/
theorem fatigue_notification_policy (c k : Bool) (t : ℚ) (d : MetricsPayload)
    (s : NotifyState) :
    ((fetchMetricsNotify c k t d s).1 = true →
      ∃ sc, d.fatigue_score = some sc ∧ 70 ≤ sc ∧ d.is_baseline_mode = false)
    ∧ (∀ l : List (ℚ × MetricsPayload),
        (fetchMetricsNotify c k t d s).1 = true →
        (∀ p ∈ l, (∀ sc, p.2.fatigue_score = some sc → 70 ≤ sc)
          ∧ p.1 - t ≤ NOTIFICATION_COOLDOWN_MS) →
        (notifyRun c k (fetchMetricsNotify c k t d s).2 l).1 = 0)
    ∧ (∀ sc, d.fatigue_score = some sc → sc < 70 → d.is_baseline_mode = false →
        (fetchMetricsNotify c k t d s).2.notifiedAbove = false)
    ∧ (∀ t2 d2 sc2, s.notifiedAbove = false → d2.fatigue_score = some sc2 →
        70 ≤ sc2 → d2.is_baseline_mode = false →
        (fetchMetricsNotify true true t2 d2 s).1 = true) := by
  refine ⟨?_, ?_, ?_, ?_⟩
  · intro h
    cases hd : d.fatigue_score with
    | none => simp [fetchMetricsNotify, hd] at h
    | some sc =>
      cases hB : d.is_baseline_mode with
      | true => simp [fetchMetricsNotify, hd, hB] at h
      | false =>
        have h2 : (maybeShowFatigueNotification c k t sc s).1 = true := by
          simpa [fetchMetricsNotify, hd, hB] using h
        refine ⟨sc, rfl, ?_, rfl⟩
        by_cases h70 : sc < FATIGUE_NOTIFY_THRESHOLD
        · unfold maybeShowFatigueNotification at h2
          rw [if_pos h70] at h2
          simp at h2
        · unfold FATIGUE_NOTIFY_THRESHOLD at h70
          exact not_lt.mp h70
  · intro l h hl
    rw [fetchMetricsNotify_fired_state c k t d s h]
    rw [notifyRun_quiet c k t l hl]
  · intro sc hd hlt hb
    have h70 : sc < FATIGUE_NOTIFY_THRESHOLD := by
      unfold FATIGUE_NOTIFY_THRESHOLD; exact hlt
    simp [fetchMetricsNotify, maybeShowFatigueNotification, hd, hb, h70]
  · intro t2 d2 sc2 hna hd2 hge hb2
    have h70 : ¬ (sc2 < FATIGUE_NOTIFY_THRESHOLD) := by
      unfold FATIGUE_NOTIFY_THRESHOLD; exact not_lt.mpr hge
    simp [fetchMetricsNotify, maybeShowFatigueNotification, hd2, hb2, h70, hna]

/-- Witness for C8 (amended) at concrete inputs: a non-baseline response at
score 50 clears the flag, and the immediately following response at score 90
(1 second later, far inside the cooldown of the firing at time 0) notifies. -/
theorem fatigue_notification_policy_witness :
    (fetchMetricsNotify true true 1000
      { fatigue_score := some 50, fuel_gauge := some 80, is_baseline_mode := false }
      { lastNotificationAt := 0, notifiedAbove := true }).2.notifiedAbove = false
    ∧ (fetchMetricsNotify true true 2000
      { fatigue_score := some 90, fuel_gauge := some 40, is_baseline_mode := false }
      { lastNotificationAt := 0, notifiedAbove := false }).1 = true := by
  constructor
  · exact (fatigue_notification_policy true true 1000
      { fatigue_score := some 50, fuel_gauge := some 80, is_baseline_mode := false }
      { lastNotificationAt := 0, notifiedAbove := true }).2.2.1 50 rfl
      (by norm_num) rfl
  · exact (fatigue_notification_policy true true 2000
      { fatigue_score := some 90, fuel_gauge := some 40, is_baseline_mode := false }
      { lastNotificationAt := 0, notifiedAbove := false }).2.2.2 2000
      { fatigue_score := some 90, fuel_gauge := some 40, is_baseline_mode := false }
      90 rfl rfl (by norm_num) rfl

/-- The calibrator step can only set the baseline; every other component of
the session state is untouched. -/
theorem calibratorStep_preserves (cfg : Config) (now : ℚ) (r : Readouts)
    (m : MonitorState) :
    (calibratorStep cfg now r m).keystroke = m.keystroke
    ∧ (calibratorStep cfg now r m).hold = m.hold
    ∧ (calibratorStep cfg now r m).context = m.context
    ∧ (calibratorStep cfg now r m).scroll = m.scroll
    ∧ (calibratorStep cfg now r m).idle = m.idle
    ∧ (calibratorStep cfg now r m).sessionStart = m.sessionStart
    ∧ (calibratorStep cfg now r m).intervention = m.intervention := by
  unfold calibratorStep
  cases m.baseline with
  | none => split_ifs <;> simp
  | some b => simp

/-- The intervention pass's sludge flag is the pure `sludgeActive`
decision. -/
theorem step_sludge_eq (now score : ℚ) (enf : Enforcement) (calib gok wok : Bool)
    (s : InterventionState) :
    (interventionStep now score enf calib gok wok s).sludge
      = sludgeActive now score enf calib s := rfl

/-- The intervention pass's grayscale decision is the pure
`autoGrayscaleTriggers`. -/
theorem step_gray_eq (now score : ℚ) (enf : Enforcement) (calib gok wok : Bool)
    (s : InterventionState) :
    (interventionStep now score enf calib gok wok s).grayscaleTriggered
      = autoGrayscaleTriggers now score enf s := rfl

/-- The intervention pass's webhook decision is the pure `webhookFires`. -/
theorem step_webhook_eq (now score : ℚ) (enf : Enforcement) (calib gok wok : Bool)
    (s : InterventionState) :
    (interventionStep now score enf calib gok wok s).webhookFired
      = webhookFires now score s := rfl

/-- A failed webhook call leaves the webhook cooldown timestamp unchanged. -/
theorem step_state_webhook_failed (now score : ℚ) (enf : Enforcement)
    (calib gok : Bool) (s : InterventionState) :
    (interventionStep now score enf calib gok false s).state.lastWebhookFiredAt
      = s.lastWebhookFiredAt := by
  unfold interventionStep
  simp only [Bool.and_false, Bool.false_eq_true, if_false]
  split_ifs <;> simp

/-- A failed display-filter call leaves the grayscale cooldown timestamp
unchanged. -/
theorem step_state_gray_failed_toggleAt (now score : ℚ) (enf : Enforcement)
    (calib wok : Bool) (s : InterventionState) :
    (interventionStep now score enf calib false wok s).state.lastGrayscaleAutoToggleAt
      = s.lastGrayscaleAutoToggleAt := by
  unfold interventionStep
  simp only [Bool.and_false, Bool.false_eq_true, if_false]
  split_ifs <;> simp

/-- A failed display-filter call leaves the grayscale switch unchanged. -/
theorem step_state_gray_failed_on (now score : ℚ) (enf : Enforcement)
    (calib wok : Bool) (s : InterventionState) :
    (interventionStep now score enf calib false wok s).state.grayscaleOn
      = s.grayscaleOn := by
  unfold interventionStep
  simp only [Bool.and_false, Bool.false_eq_true, if_false]
  split_ifs <;> simp

/-- `panicActive` is false exactly when any recorded `panicUntil` is not in
the future. -/
theorem panicActive_eq_false_iff (now : ℚ) (s : InterventionState) :
    panicActive now s = false ↔ ∀ pu, s.panicUntil = some pu → pu ≤ now := by
  unfold panicActive
  cases hp : s.panicUntil with
  | none => simp
  | some u => simp [not_lt]

/-- The grayscale cooldown holds exactly when any recorded auto-toggle is at
least 30 minutes old. -/
theorem grayscaleCooldownOk_iff (now : ℚ) (s : InterventionState) :
    grayscaleCooldownOk now s = true
      ↔ ∀ ta, s.lastGrayscaleAutoToggleAt = some ta → 30 * 60 ≤ now - ta := by
  unfold grayscaleCooldownOk
  cases ht : s.lastGrayscaleAutoToggleAt with
  | none => simp
  | some ta => simp

/-- C1 (spec-modelled): while the session is in baseline-calibration mode
(no active baseline profile and the calibration window still open),
`Sample()` returns fatigue score 0 and fuel gauge 100 with
`is_baseline_mode = true`, and the returned snapshot does not depend on any
tracker readout. -/
theorem sample_in_calibration_mode (cfg : Config) (now hour : ℚ)
    (r r2 : Readouts) (gok wok : Bool) (m : MonitorState)
    (hb : m.baseline = none)
    (he : (now - m.sessionStart) / 60 < cfg.baselineMinutes) :
    (sample cfg now hour r gok wok m).1.fatigue_score = 0
    ∧ (sample cfg now hour r gok wok m).1.fuel_gauge = 100
    ∧ (sample cfg now hour r gok wok m).1.is_baseline_mode = true
    ∧ (sample cfg now hour r gok wok m).1 = (sample cfg now hour r2 gok wok m).1 := by
  have hcal : ∀ rr : Readouts, calibratorStep cfg now rr m = m := by
    intro rr
    unfold calibratorStep
    rw [hb]
    simp [not_le.mpr he]
  refine ⟨?_, ?_, ?_, ?_⟩ <;> simp [sample, hcal, fatigueScorer, hb]

/-- Witness for C1 at a concrete calibrating session (1 minute into a
5-minute window), with two different tracker readouts. -/
theorem sample_in_calibration_mode_witness :
    (sample { enforcement := Enforcement.high, baselineMinutes := 5 } 60 12
      { latencyStd := 5, latencyMean := 100, errorRateProxy := 1 / 10,
        holdStd := 3, switchesPerMinute := 2, trapDetected := false,
        idleDetected := false, cognitiveLoad := 1 / 2 }
      true true (initMonitor 0 none)).1.fatigue_score = 0
    ∧ (sample { enforcement := Enforcement.high, baselineMinutes := 5 } 60 12
      { latencyStd := 5, latencyMean := 100, errorRateProxy := 1 / 10,
        holdStd := 3, switchesPerMinute := 2, trapDetected := false,
        idleDetected := false, cognitiveLoad := 1 / 2 }
      true true (initMonitor 0 none)).1.fuel_gauge = 100 := by
  have h := sample_in_calibration_mode
    { enforcement := Enforcement.high, baselineMinutes := 5 } 60 12
    { latencyStd := 5, latencyMean := 100, errorRateProxy := 1 / 10,
      holdStd := 3, switchesPerMinute := 2, trapDetected := false,
      idleDetected := false, cognitiveLoad := 1 / 2 }
    { latencyStd := 9, latencyMean := 200, errorRateProxy := 1 / 5,
      holdStd := 7, switchesPerMinute := 11, trapDetected := true,
      idleDetected := true, cognitiveLoad := 1 }
    true true (initMonitor 0 none) rfl (by norm_num [initMonitor])
  exact ⟨h.1, h.2.1⟩

/-- C2 (spec-modelled): while `now < panicUntil` — the override
`RequestPanic()` installs with `panicUntil = now + 15min` — a `Sample()`
call triggers neither auto-grayscale nor sludge, for every state, score and
enforcement level. -/
theorem panic_window_suppresses_interventions (now pu score : ℚ)
    (enf : Enforcement) (calib gok wok : Bool) (s : InterventionState)
    (hp : s.panicUntil = some pu) (hlt : now < pu) :
    (interventionStep now score enf calib gok wok s).grayscaleTriggered = false
    ∧ (interventionStep now score enf calib gok wok s).sludge = false
    ∧ (∀ t0 s0, (requestPanic t0 s0).state.panicUntil = some (t0 + 15 * 60)) := by
  have hpa : panicActive now s = true := by
    unfold panicActive
    rw [hp]
    simp [hlt]
  refine ⟨?_, ?_, fun t0 s0 => rfl⟩
  · rw [step_gray_eq]
    unfold autoGrayscaleTriggers
    cases enf <;> simp [grayscaleThreshold, hpa]
  · rw [step_sludge_eq]
    unfold sludgeActive
    simp [hpa]

/-- Witness for C2: immediately after `RequestPanic()` at time 0, a sample
at time 1 with score 95 under high enforcement triggers neither
auto-grayscale nor sludge. -/
theorem panic_window_suppresses_interventions_witness :
    (interventionStep 1 95 Enforcement.high false true true
      (requestPanic 0 initInterventionState).state).grayscaleTriggered = false
    ∧ (interventionStep 1 95 Enforcement.high false true true
      (requestPanic 0 initInterventionState).state).sludge = false := by
  have h := panic_window_suppresses_interventions 1 (0 + 15 * 60) 95
    Enforcement.high false true true
    (requestPanic 0 initInterventionState).state rfl (by norm_num)
  exact ⟨h.1, h.2.1⟩

/-- C3 (spec-modelled): the fatigue webhook fires on a `Sample()` exactly
when `score ≥ 85` and at least 600 seconds have passed since
`lastWebhookFiredAt`; one second after a successful firing no further call
is made; and the panic webhook is never gated by — and never updates — that
cooldown. -/
theorem webhook_cooldown_policy (now score t : ℚ) (enf : Enforcement)
    (calib gok : Bool) (s : InterventionState)
    (hlast : s.lastWebhookFiredAt = some t) :
    ((interventionStep now score enf calib gok true s).webhookFired = true
      ↔ (85 ≤ score ∧ 600 ≤ now - t))
    ∧ ((interventionStep now score enf calib gok true s).webhookFired = true →
        ∀ score2 calib2 gok2,
          (interventionStep (now + 1) score2 enf calib2 gok2 true
            ((interventionStep now score enf calib gok true s).state)).webhookFired
              = false)
    ∧ (∀ t0 s0, (requestPanic t0 s0).panicWebhookFired = true
        ∧ (requestPanic t0 s0).state.lastWebhookFiredAt = s0.lastWebhookFiredAt) := by
  refine ⟨?_, ?_, fun t0 s0 => ⟨rfl, rfl⟩⟩
  · rw [step_webhook_eq]
    unfold webhookFires webhookCooldownOk
    rw [hlast]
    simp
  · intro hf score2 calib2 gok2
    have hw : webhookFires now score s = true := by
      rw [← step_webhook_eq now score enf calib gok true s]
      exact hf
    have hstate :
        ((interventionStep now score enf calib gok true s).state).lastWebhookFiredAt
          = some now := by
      simp [interventionStep, hw]
    rw [step_webhook_eq]
    unfold webhookFires webhookCooldownOk
    rw [hstate]
    have harith : now + 1 - now = (1 : ℚ) := by ring
    have h600 : ¬ ((600 : ℚ) ≤ 1) := by norm_num
    simp [harith, h600]

/-- Witness for C3: with the last firing 600 seconds ago and score 90, the
webhook fires. -/
theorem webhook_cooldown_policy_witness :
    (interventionStep 600 90 Enforcement.high false true true
      { grayscaleOn := false, lastGrayscaleAutoToggleAt := none,
        lastWebhookFiredAt := some 0, panicUntil := none }).webhookFired = true := by
  exact (webhook_cooldown_policy 600 90 0 Enforcement.high false true
    { grayscaleOn := false, lastGrayscaleAutoToggleAt := none,
      lastWebhookFiredAt := some 0, panicUntil := none } rfl).1.mpr
    ⟨by norm_num, by norm_num⟩

/-- C4 (spec-modelled): under low enforcement a `Sample()` never triggers
grayscale or sludge at any score; sludge holds exactly when enforcement is
high, score ≥ 70, no panic override is active and the session is not
calibrating; auto-grayscale triggers exactly when the per-level threshold
(80 high / 90 medium, never low) is met, no panic is active, grayscale is
off, and the last auto-toggle is at least 30 minutes old. -/
theorem enforcement_gates_interventions (now score : ℚ) (enf : Enforcement)
    (calib gok wok : Bool) (s : InterventionState) :
    ((interventionStep now score Enforcement.low calib gok wok s).grayscaleTriggered
        = false
      ∧ (interventionStep now score Enforcement.low calib gok wok s).sludge = false)
    ∧ ((interventionStep now score enf calib gok wok s).sludge = true ↔
        (enf = Enforcement.high ∧ 70 ≤ score
          ∧ (∀ pu, s.panicUntil = some pu → pu ≤ now) ∧ calib = false))
    ∧ ((interventionStep now score enf calib gok wok s).grayscaleTriggered = true ↔
        (((enf = Enforcement.high ∧ 80 ≤ score)
            ∨ (enf = Enforcement.medium ∧ 90 ≤ score))
          ∧ (∀ pu, s.panicUntil = some pu → pu ≤ now)
          ∧ s.grayscaleOn = false
          ∧ (∀ ta, s.lastGrayscaleAutoToggleAt = some ta → 30 * 60 ≤ now - ta))) := by
  refine ⟨⟨?_, ?_⟩, ?_, ?_⟩
  · rw [step_gray_eq]
    simp [autoGrayscaleTriggers, grayscaleThreshold]
  · rw [step_sludge_eq]
    simp [sludgeActive]
  · rw [step_sludge_eq]
    simp only [sludgeActive, Bool.and_eq_true, decide_eq_true_eq,
      Bool.not_eq_true']
    rw [panicActive_eq_false_iff]
    tauto
  · rw [step_gray_eq]
    cases enf with
    | low =>
      simp [autoGrayscaleTriggers, grayscaleThreshold]
    | medium =>
      simp only [autoGrayscaleTriggers, grayscaleThreshold, Bool.and_eq_true,
        decide_eq_true_eq, Bool.not_eq_true']
      rw [panicActive_eq_false_iff, grayscaleCooldownOk_iff]
      simp
      tauto
    | high =>
      simp only [autoGrayscaleTriggers, grayscaleThreshold, Bool.and_eq_true,
        decide_eq_true_eq, Bool.not_eq_true']
      rw [panicActive_eq_false_iff, grayscaleCooldownOk_iff]
      simp
      tauto

/-- Witness for C4: high enforcement at score 70 with no panic and no
calibration activates sludge; low enforcement at score 100 does not. -/
theorem enforcement_gates_interventions_witness :
    (interventionStep 0 70 Enforcement.high false true true
      initInterventionState).sludge = true
    ∧ (interventionStep 0 100 Enforcement.low false true true
      initInterventionState).sludge = false := by
  constructor
  · exact (enforcement_gates_interventions 0 70 Enforcement.high false true true
      initInterventionState).2.1.mpr
      ⟨rfl, by norm_num, by simp [initInterventionState], rfl⟩
  · exact (enforcement_gates_interventions 0 100 Enforcement.high false true true
      initInterventionState).1.2

/-- C5 (spec-modelled): a failing side-effecting collaborator (display
filter or webhook transport) never changes the returned snapshot — the
score is still computed and returned — and the corresponding cooldown
timestamp (and the grayscale switch) is left unchanged by the failed
attempt. -/
theorem collaborator_failure_nonfatal (cfg : Config) (now hour : ℚ)
    (r : Readouts) (gok wok : Bool) (m : MonitorState) :
    (sample cfg now hour r false false m).1 = (sample cfg now hour r true true m).1
    ∧ (sample cfg now hour r gok false m).2.intervention.lastWebhookFiredAt
        = m.intervention.lastWebhookFiredAt
    ∧ (sample cfg now hour r false wok m).2.intervention.lastGrayscaleAutoToggleAt
        = m.intervention.lastGrayscaleAutoToggleAt
    ∧ (sample cfg now hour r false wok m).2.intervention.grayscaleOn
        = m.intervention.grayscaleOn := by
  have hm1 : (calibratorStep cfg now r m).intervention = m.intervention :=
    (calibratorStep_preserves cfg now r m).2.2.2.2.2.2
  refine ⟨rfl, ?_, ?_, ?_⟩
  · simp [sample, step_state_webhook_failed, hm1]
  · simp [sample, step_state_gray_failed_toggleAt, hm1]
  · simp [sample, step_state_gray_failed_on, hm1]

/-- Appending to a list with no last element (the empty list) creates no new
consecutive difference. -/
theorem diffs_concat_none (x : ℚ) (l : List ℚ) (h : l.getLast? = none) :
    diffs (l ++ [x]) = diffs l := by
  rw [List.getLast?_eq_none_iff] at h
  subst h
  rfl

/-- Appending `x` to a list ending in `p` appends the single consecutive
difference `x - p`. -/
theorem diffs_concat_last (x : ℚ) (l : List ℚ) :
    ∀ p, l.getLast? = some p → diffs (l ++ [x]) = diffs l ++ [x - p] := by
  induction l with
  | nil =>
    intro p h
    simp at h
  | cons a t ih =>
    intro p h
    cases t with
    | nil =>
      simp at h
      subst h
      rfl
    | cons b t2 =>
      have h2 : (b :: t2).getLast? = some p := by
        rwa [List.getLast?_cons_cons] at h
      have ih2 := ih p h2
      calc diffs ((a :: b :: t2) ++ [x])
          = (b - a) :: diffs ((b :: t2) ++ [x]) := rfl
        _ = (b - a) :: (diffs (b :: t2) ++ [x - p]) := by rw [ih2]
        _ = diffs (a :: b :: t2) ++ [x - p] := rfl

/-- The last at-most-`cap` elements of `l ++ [x]` are the bounded push-evict
of `x` onto the last at-most-`cap` elements of `l`. -/
theorem lastN_concat (cap : Nat) (l : List ℚ) (x : ℚ) :
    lastN cap (l ++ [x]) = pushWindow cap (lastN cap l) x := by
  unfold lastN pushWindow
  rcases Nat.lt_or_ge l.length cap with h | h
  · have h1 : l.length - cap = 0 := Nat.sub_eq_zero_of_le (Nat.le_of_lt h)
    have h2 : l.length + 1 - cap = 0 := Nat.sub_eq_zero_of_le h
    have hnc : ¬ (cap < l.length + 1) := by omega
    simp [h1, h2, hnc]
  · have hd : (l ++ [x]).drop (l.length - cap) = l.drop (l.length - cap) ++ [x] :=
      List.drop_append_of_le_length (Nat.sub_le _ _)
    have hlen : (l.drop (l.length - cap)).length = cap := by
      rw [List.length_drop]
      omega
    simp only [List.length_append, List.length_cons, List.length_nil, hlen]
    rw [if_pos (Nat.lt_succ_self cap)]
    have e1 : cap + 1 - cap = 1 := by omega
    rw [e1, ← hd, List.drop_drop]
    congr 1
    omega

/-- A bounded push-evict with positive capacity never produces the empty
window. -/
theorem pushWindow_ne_nil (cap : Nat) (w : List ℚ) (x : ℚ) (hc : 0 < cap) :
    pushWindow cap w x ≠ [] := by
  unfold pushWindow
  split_ifs with h
  · intro hnil
    have hlen := congrArg List.length hnil
    rw [List.length_drop] at hlen
    simp [List.length_append] at hlen
    omega
  · simp

/-- The keystroke tracker's fold over an event sequence computes, field by
field: the last non-modifier timestamp, the last at-most-50 accepted
intervals, and the backspace/keystroke counts — each recomputed
independently from the whole sequence. -/
theorem keystroke_tracker_fold_spec (es : List KeyEvent) :
    (runKeystrokeTracker es).prevAt = (nonModifierTimes es).getLast?
    ∧ (runKeystrokeTracker es).window = lastN WINDOW_CAP (specAcceptedIntervals es)
    ∧ (runKeystrokeTracker es).backspaces
        = ((es.filter (fun x => !x.isModifier && x.isBackspace)).length)
    ∧ (runKeystrokeTracker es).totalKeystrokes
        = ((es.filter (fun x => !x.isModifier)).length) := by
  induction es using List.reverseRecOn with
  | nil => exact ⟨rfl, rfl, rfl, rfl⟩
  | append_singleton es e ih =>
    obtain ⟨ih1, ih2, ih3, ih4⟩ := ih
    have hrun : runKeystrokeTracker (es ++ [e])
        = KeystrokeLatencyTracker.onKeyDown (runKeystrokeTracker es) e := by
      unfold runKeystrokeTracker
      rw [List.foldl_append]
      rfl
    cases hmod : e.isModifier with
    | true =>
      have hnm : nonModifierTimes (es ++ [e]) = nonModifierTimes es := by
        unfold nonModifierTimes
        rw [List.filter_append]
        simp [hmod]
      have hacc : specAcceptedIntervals (es ++ [e]) = specAcceptedIntervals es := by
        unfold specAcceptedIntervals
        rw [hnm]
      have hfb : (es ++ [e]).filter (fun x => !x.isModifier && x.isBackspace)
          = es.filter (fun x => !x.isModifier && x.isBackspace) := by
        rw [List.filter_append]
        simp [hmod]
      have hft : (es ++ [e]).filter (fun x => !x.isModifier)
          = es.filter (fun x => !x.isModifier) := by
        rw [List.filter_append]
        simp [hmod]
      have hstep : KeystrokeLatencyTracker.onKeyDown (runKeystrokeTracker es) e
          = runKeystrokeTracker es := by
        unfold KeystrokeLatencyTracker.onKeyDown
        simp [hmod]
      rw [hrun, hstep, hnm, hacc, hfb, hft]
      exact ⟨ih1, ih2, ih3, ih4⟩
    | false =>
      have hnm : nonModifierTimes (es ++ [e]) = nonModifierTimes es ++ [e.t] := by
        unfold nonModifierTimes
        rw [List.filter_append, List.map_append]
        simp [hmod]
      have hfb : ((es ++ [e]).filter (fun x => !x.isModifier && x.isBackspace)).length
          = (es.filter (fun x => !x.isModifier && x.isBackspace)).length
            + (if e.isBackspace then 1 else 0) := by
        rw [List.filter_append, List.length_append]
        cases hback : e.isBackspace <;> simp [hmod, hback]
      have hft : ((es ++ [e]).filter (fun x => !x.isModifier)).length
          = (es.filter (fun x => !x.isModifier)).length + 1 := by
        rw [List.filter_append, List.length_append]
        simp [hmod]
      rw [hrun]
      unfold KeystrokeLatencyTracker.onKeyDown
      simp only [hmod, Bool.false_eq_true, if_false]
      refine ⟨?_, ?_, ?_, ?_⟩
      · rw [hnm, List.getLast?_concat]
      · show (match (runKeystrokeTracker es).prevAt with
          | none => (runKeystrokeTracker es).window
          | some p =>
            if acceptsInterval (e.t - p) then
              pushWindow WINDOW_CAP (runKeystrokeTracker es).window (e.t - p)
            else (runKeystrokeTracker es).window)
          = lastN WINDOW_CAP (specAcceptedIntervals (es ++ [e]))
        rw [ih1]
        cases hlast : (nonModifierTimes es).getLast? with
        | none =>
          have hnil : nonModifierTimes es = [] := by
            rwa [List.getLast?_eq_none_iff] at hlast
          have hs1 : specAcceptedIntervals (es ++ [e]) = [] := by
            unfold specAcceptedIntervals
            rw [hnm, hnil]
            rfl
          have hs2 : specAcceptedIntervals es = [] := by
            unfold specAcceptedIntervals
            rw [hnil]
            rfl
          rw [ih2, hs1, hs2]
        | some p =>
          have hdiffs : diffs (nonModifierTimes es ++ [e.t])
              = diffs (nonModifierTimes es) ++ [e.t - p] :=
            diffs_concat_last e.t (nonModifierTimes es) p hlast
          have hspec : specAcceptedIntervals (es ++ [e])
              = specAcceptedIntervals es
                ++ (if acceptsInterval (e.t - p) then [e.t - p] else []) := by
            unfold specAcceptedIntervals
            rw [hnm, hdiffs, List.filter_append]
            congr 1
            cases hai : acceptsInterval (e.t - p) <;> simp [hai]
          rw [hspec, ih2]
          cases hai : acceptsInterval (e.t - p) with
          | true => simp [hai, lastN_concat]
          | false => simp [hai]
      · rw [ih3, hfb]
      · rw [ih4, hft]

/-- C6: the keystroke-latency tracker accepts an inter-keystroke interval
only if it lies in [20ms, 2000ms] between non-modifier keys (that is the
definition of `specAcceptedIntervals`); after any event sequence its window
holds exactly the last at-most-50 accepted intervals in arrival order —
hence its `latencyStd` (the square root of the window's population
variance) equals the population standard deviation of exactly those
values — and `errorRateProxy` equals backspaces over total keystrokes, 0
when there were none. -/
theorem keystroke_tracker_matches_spec (es : List KeyEvent) :
    (runKeystrokeTracker es).window = lastN WINDOW_CAP (specAcceptedIntervals es)
    ∧ popVariance (runKeystrokeTracker es).window
        = popVariance (lastN WINDOW_CAP (specAcceptedIntervals es))
    ∧ (runKeystrokeTracker es).errorRateProxy = specErrorRateProxy es := by
  obtain ⟨h1, h2, h3, h4⟩ := keystroke_tracker_fold_spec es
  refine ⟨h2, by rw [h2], ?_⟩
  unfold KeystrokeLatencyTracker.errorRateProxy specErrorRateProxy
  rw [h3, h4]

/-- C7 (spec-modelled): an explicit `Recalibrate()` discards the baseline
profile, empties every signal tracker's window (so `errorRateProxy` reads 0
even when it was nonzero), resets the session clock to the recalibration
time, and re-enters calibration mode; and no other operation clears tracker
history — `Sample()` leaves every tracker untouched, and no tracker event
handler ever turns a nonempty window into an empty one. -/
theorem recalibrate_resets_session (now : ℚ) (m : MonitorState) :
    (recalibrate now m).baseline = none
    ∧ (recalibrate now m).keystroke.window = []
    ∧ (recalibrate now m).hold.window = []
    ∧ (recalibrate now m).context.switchTimes = []
    ∧ (recalibrate now m).scroll.scrollTimes = []
    ∧ (recalibrate now m).keystroke.errorRateProxy = 0
    ∧ (recalibrate now m).sessionStart = now
    ∧ (∀ cfg hour r gok wok,
        (sample cfg now hour r gok wok m).2.keystroke = m.keystroke
        ∧ (sample cfg now hour r gok wok m).2.hold = m.hold
        ∧ (sample cfg now hour r gok wok m).2.context = m.context
        ∧ (sample cfg now hour r gok wok m).2.scroll = m.scroll)
    ∧ (∀ e, (m.keystroke.onKeyDown e).window = [] → m.keystroke.window = [])
    ∧ (∀ key t, (m.hold.onKeyUp key t).window = [] → m.hold.window = [])
    ∧ (∀ title t, (m.context.onFocusChange title t).switchTimes = []
        → m.context.switchTimes = [])
    ∧ (∀ t, (m.scroll.onScroll t).scrollTimes = [] → m.scroll.scrollTimes = []) := by
  refine ⟨rfl, rfl, rfl, rfl, rfl, rfl, rfl, ?_, ?_, ?_, ?_, ?_⟩
  · intro cfg hour r gok wok
    have hp := calibratorStep_preserves cfg now r m
    exact ⟨by simp [sample, hp.1], by simp [sample, hp.2.1],
      by simp [sample, hp.2.2.1], by simp [sample, hp.2.2.2.1]⟩
  · intro e hw
    by_cases hmod : e.isModifier = true
    · simpa [KeystrokeLatencyTracker.onKeyDown, hmod] using hw
    · cases hp : m.keystroke.prevAt with
      | none => simpa [KeystrokeLatencyTracker.onKeyDown, hmod, hp] using hw
      | some p =>
        cases hai : acceptsInterval (e.t - p) with
        | true =>
          have hw2 : pushWindow WINDOW_CAP m.keystroke.window (e.t - p) = [] := by
            simpa [KeystrokeLatencyTracker.onKeyDown, hmod, hp, hai] using hw
          exact absurd hw2
            (pushWindow_ne_nil WINDOW_CAP m.keystroke.window (e.t - p)
              (by norm_num [WINDOW_CAP]))
        | false =>
          simpa [KeystrokeLatencyTracker.onKeyDown, hmod, hp, hai] using hw
  · intro key t hw
    unfold HoldDurationTracker.onKeyUp at hw
    cases hf : m.hold.pressAt.find? (fun q => q.1 = key) with
    | none => rw [hf] at hw; exact hw
    | some q =>
      rw [hf] at hw
      dsimp only [] at hw
      split_ifs at hw
      · exact absurd hw
          (pushWindow_ne_nil WINDOW_CAP m.hold.window (t - q.2)
            (by norm_num [WINDOW_CAP]))
      · exact hw
  · intro title t hw
    unfold ContextSwitchTracker.onFocusChange at hw
    split_ifs at hw
    · exact hw
    · simp at hw
  · intro t hw
    unfold ScrollTrapTracker.onScroll at hw
    simp at hw

/-- Witness for C7 at a session whose keystroke tracker holds one sample and
a nonzero error rate: recalibration empties the window and zeroes the error
rate. -/
theorem recalibrate_resets_session_witness :
    (recalibrate 5 (⟨⟨some 0, [100], 1, 2⟩, initHoldTracker, initContextTracker,
      initScrollTracker, ⟨0⟩, some ⟨5, 1 / 10, 3, 0⟩, 0,
      initInterventionState⟩ : MonitorState)).keystroke.errorRateProxy = 0
    ∧ (recalibrate 5 (⟨⟨some 0, [100], 1, 2⟩, initHoldTracker, initContextTracker,
      initScrollTracker, ⟨0⟩, some ⟨5, 1 / 10, 3, 0⟩, 0,
      initInterventionState⟩ : MonitorState)).keystroke.window = [] := by
  have h := recalibrate_resets_session 5 (⟨⟨some 0, [100], 1, 2⟩, initHoldTracker,
    initContextTracker, initScrollTracker, ⟨0⟩, some ⟨5, 1 / 10, 3, 0⟩, 0,
    initInterventionState⟩ : MonitorState)
  exact ⟨h.2.2.2.2.2.1, h.2.1⟩

end Aura
